import Mathlib

/-!
Shallow embedding of the PassPhraseX credential-vault core
(src/common/src/crypto/asymmetric.rs, src/cli/src/lib.rs,
src/extension/background-script/src/lib.rs), with theorems settling the
specification claims about it.

External cryptographic collaborators are modelled symbolically:
- X25519 Diffie–Hellman (the `crypto_box` crate) is modelled as
  Diffie–Hellman in a small cyclic group `(Z mod dhP)^*`; scalars act
  through the exponent reduced modulo 100 (the model group exponent), which
  keeps the model executable while preserving the commutativity
  `dh(pub(a), b) = dh(pub(b), a)` the code relies on.
- The ChaCha20-Poly1305 AEAD sealing inside `ChaChaBox` is modelled as an
  ideal authenticated container `BoxCipher`: sealing records the key, the
  nonce and the plaintext; opening succeeds exactly when the key and nonce
  match (tampering with any component is detected, as the Poly1305 tag
  guarantees for the real primitive).
- `OsRng` is modelled as an explicitly threaded counter state: each
  encryption call consumes the current value as its fresh nonce and
  advances the state, so fresh draws are distinct (the spec's idealization
  of a CSPRNG nonce source: nonces never repeat for a given key).
- base64 (URL_SAFE) encoding is injective, so the encoded text fields are
  modelled by the underlying values themselves.
Rust `Result`/panic outcomes are modelled by `RResult`: `ok`, `err` (an
error value returned to the caller) and `panicked` (an `unwrap`/`expect`
abort, which never reaches the caller as a value).
-/

namespace PassPhraseX

/-- Outcome of a Rust computation: a value, an error returned to the
caller, or a panic (`unwrap`/`expect` on a failure, which aborts). -/
inductive RResult (α : Type) where
  | ok (a : α)
  | err (e : String)
  | panicked
deriving DecidableEq, Repr

/-- True exactly when the outcome is an error returned to the caller. -/
def RResult.isErr {α : Type} : RResult α → Bool
  | .err _ => true
  | _ => false

/-- Modulus of the model Diffie–Hellman group (a prime). -/
def dhP : Nat := 101

/-- Generator of the model Diffie–Hellman group. -/
def dhG : Nat := 7

/-- Public key derived from a secret scalar: `g ^ sk` in the model group.
Models `SecretKey::public_key()` (X25519 scalar multiplication of the base
point). The exponent is reduced mod 100, the model group exponent. -/
def pubOf (sk : Nat) : Nat := dhG ^ (sk % 100) % dhP

/-- Shared key computed by `ChaChaBox::new(pk, sk)`: the X25519
Diffie–Hellman shared secret, `pk ^ sk` in the model group. -/
def sharedKey (pk sk : Nat) : Nat := pk ^ (sk % 100) % dhP

/-- Ideal-cipher model of a `crypto_box` AEAD ciphertext: the sealed box
carries the key and nonce it was sealed under and the plaintext. -/
structure BoxCipher where
  key : Nat
  nonce : Nat
  msg : String
deriving DecidableEq, Repr

/-- Sealing under the ideal AEAD: records key, nonce and message. -/
def boxSeal (key nonce : Nat) (msg : String) : BoxCipher :=
  ⟨key, nonce, msg⟩

/-- Opening under the ideal AEAD: authenticates exactly when both the key
and the nonce match the ones the box was sealed under. -/
def boxOpen (key nonce : Nat) (c : BoxCipher) : Option String :=
  if c.key = key ∧ c.nonce = nonce then some c.msg else none

/-- `EncryptedValue { cipher, nonce }` (src/common/src/crypto/common.rs,
re-exported through asymmetric.rs): the base64 text fields are modelled by
the underlying sealed box and nonce value (base64 is injective). -/
structure EncryptedValue where
  cipher : BoxCipher
  nonce : Nat
deriving DecidableEq, Repr

/-- `SeedPhrase { phrase: String }` (asymmetric.rs, lines 9-12). -/
structure SeedPhrase where
  phrase : String
deriving DecidableEq, Repr

/-- `impl From<String> for SeedPhrase` (asymmetric.rs, lines 33-37): wraps
the string with no validation of any kind. -/
def SeedPhrase.fromString (value : String) : SeedPhrase :=
  ⟨value⟩

/-- `SeedPhrase::get_phrase` (asymmetric.rs, lines 22-24). -/
def SeedPhrase.get_phrase (sp : SeedPhrase) : String :=
  sp.phrase

/-- Model wordlist standing for the BIP-39 English wordlist used by
`Mnemonic::new` (external `bip32` crate). -/
def wordlist : List String :=
  ["abandon", "ability", "able", "about", "zoo"]

/-- Split a character list into space-separated words. -/
def splitWordsAux : List Char → List Char → List (List Char)
  | [], cur => [cur.reverse]
  | c :: rest, cur =>
    if c = ' ' then cur.reverse :: splitWordsAux rest []
    else splitWordsAux rest (c :: cur)

/-- The space-separated words of a string. -/
def words (s : String) : List String :=
  (splitWordsAux s.data []).map fun l => String.mk l

/-- Modelled from the spec: mnemonic validation performed by
`Mnemonic::new` of the external `bip32` crate — "the whole phrase parses
against the wordlist+checksum or construction fails". Modelled as: the
phrase is twelve words, all from the wordlist (checksum abstracted into
the word count). -/
def validMnemonic (s : String) : Bool :=
  let ws := words s
  ws.length == 12 && ws.all fun w => wordlist.contains w

/-- Modelled from the spec: the deterministic derivation
`Mnemonic::to_seed("")` followed by `XPrv::new` (external `bip32` crate) —
"stretches the phrase into a seed value, then deterministically derives a
32-byte private key". Modelled as a deterministic injection of the phrase
characters into a natural number. -/
def deriveSk (phrase : String) : Nat :=
  phrase.data.foldl (fun a c => a * 256 + c.toNat % 256) 1

/-- `KeyPair { private_key, public_key }` (asymmetric.rs, lines 39-43). -/
structure KeyPair where
  private_key : Nat
  public_key : Nat
deriving DecidableEq, Repr

/-- `KeyPair::from_sk` (asymmetric.rs, lines 76-83): rebuilds the pair
from raw private-key bytes, deriving the public key. -/
def KeyPair.from_sk (sk : Nat) : KeyPair :=
  ⟨sk, pubOf sk⟩

/-- `KeyPair::try_new` (asymmetric.rs, lines 54-74): validates the
mnemonic, then derives the private key from the seed and the public key
from the private key. -/
def KeyPair.tryNew (seed_phrase : SeedPhrase) : RResult KeyPair :=
  if validMnemonic seed_phrase.get_phrase then
    .ok (KeyPair.from_sk (deriveSk seed_phrase.get_phrase))
  else
    .err "Failed to create mnemonic"

/-- `KeyPair::new` (asymmetric.rs, lines 50-52):
`try_new(...).expect(...)` — panics instead of returning the error. -/
def KeyPair.newOrPanic (seed_phrase : SeedPhrase) : RResult KeyPair :=
  match KeyPair.tryNew seed_phrase with
  | .ok kp => .ok kp
  | _ => .panicked

/-- The self-addressed box key `ChaChaBox::new(&self.public_key,
&self.private_key)` used by both `encrypt` and `decrypt`. -/
def KeyPair.selfKey (kp : KeyPair) : Nat :=
  sharedKey kp.public_key kp.private_key

/-- `KeyPair::encrypt` (asymmetric.rs, lines 85-102): draws a fresh nonce
from the RNG state, seals the message in the self-addressed box, and
returns the ciphertext and nonce (base64-encoded in the source) together
with the advanced RNG state. -/
def KeyPair.encrypt (kp : KeyPair) (rng : Nat) (message : String) :
    EncryptedValue × Nat :=
  (⟨boxSeal kp.selfKey rng message, rng⟩, rng + 1)

/-- `KeyPair::decrypt` (asymmetric.rs, lines 104-124): opens the
self-addressed box with the value's nonce and cipher. The source calls
`.unwrap()` on the decryption result, so an authentication failure panics
— the function's return type is a plain `String` with no error channel. -/
def KeyPair.decrypt (kp : KeyPair) (enc : EncryptedValue) : RResult String :=
  match boxOpen kp.selfKey enc.nonce enc.cipher with
  | some m => .ok m
  | none => .panicked

/-- `KeyPair::sign` (asymmetric.rs, lines 126-143): seals the message in
`ChaChaBox::new(&SecretKey::from([0; 32]).public_key(), &self.private_key)`
— the box addressed to the fixed all-zero verification key — under a fresh
nonce. -/
def KeyPair.sign (kp : KeyPair) (rng : Nat) (message : String) :
    EncryptedValue × Nat :=
  (⟨boxSeal (sharedKey (pubOf 0) kp.private_key) rng message, rng⟩, rng + 1)

/-- `verify` (asymmetric.rs, lines 163-180): opens the token with
`ChaChaBox::new(public_key, &SecretKey::from([0; 32]))`; a decryption
failure is returned as an error (`Failed to decrypt`), not a panic. -/
def verify (public_key : Nat) (value : EncryptedValue) : RResult String :=
  match boxOpen (sharedKey public_key 0) value.nonce value.cipher with
  | some m => .ok m
  | none => .err "Failed to decrypt"

/-- Salt fed to the keyed hash: either the base64-encoded public key
(`KeyPair::hash`) or a randomly generated salt (`generate_salt`). The two
sources are kept in distinct constructors, as base64-encoded 32-byte keys
and generated salts are distinct strings; base64 is injective, so the
public-key salt is modelled by the key value itself. -/
inductive SaltT where
  | pk (n : Nat)
  | random (s : String)
deriving DecidableEq, Repr

/-- Modelled from the spec: the output of the memory-hard keyed hash
`symmetric::hash(message, salt)` (src/common/src/crypto/symmetric.rs is
not under src/). The spec requires it to be deterministic and
collision-resistant, so it is modelled as the ideal injective record of
its inputs. -/
structure HashOutput where
  msg : String
  salt : SaltT
deriving DecidableEq, Repr

/-- `PasswordHash { cipher, nonce }` (spec §3): `cipher` is the hash
output, `nonce` stores the salt it was computed with. -/
structure PasswordHash where
  cipher : HashOutput
  nonce : SaltT
deriving DecidableEq, Repr

/-- Modelled from the spec: `symmetric::hash` — "memory-hard hash for
local verification only; salt is randomly generated once at registration
and persisted alongside the hash" (symmetric.rs is not under src/). -/
def hashFn (message : String) (salt : SaltT) : PasswordHash :=
  ⟨⟨message, salt⟩, salt⟩

/-- Modelled from the spec: `symmetric::verify_password(password, cipher,
nonce)` — "recomputes and compares; failure signals
IncorrectDevicePassword" (symmetric.rs is not under src/). -/
def verifyPassword (password : String) (cipher : HashOutput) (nonce : SaltT) :
    RResult Unit :=
  if cipher = ⟨password, nonce⟩ then .ok () else .err "IncorrectDevicePassword"

/-- `KeyPair::hash` (asymmetric.rs, lines 145-149): the keyed hash of the
message salted with the base64-encoded public key; returns the hash's
`cipher` component. -/
def KeyPair.hash (kp : KeyPair) (message : String) : HashOutput :=
  (hashFn message (SaltT.pk kp.public_key)).cipher

/-- Association-list lookup, modelling `HashMap::get`. -/
def mapGet {α β : Type} [DecidableEq α] : List (α × β) → α → Option β
  | [], _ => none
  | (k2, v) :: rest, k => if k2 = k then some v else mapGet rest k

/-- Association-list insert-or-replace, modelling `HashMap::insert`. -/
def mapInsert {α β : Type} [DecidableEq α] : List (α × β) → α → β → List (α × β)
  | [], k, v => [(k, v)]
  | (k2, v2) :: rest, k, v =>
    if k2 = k then (k2, v) :: rest else (k2, v2) :: mapInsert rest k v

/-- Association-list removal, modelling `HashMap::remove`. -/
def mapRemove {α β : Type} [DecidableEq α] : List (α × β) → α → List (α × β)
  | [], _ => []
  | (k2, v2) :: rest, k =>
    if k2 = k then rest else (k2, v2) :: mapRemove rest k

/-- Association-list in-place modification of an existing entry, modelling
`Entry::and_modify` (absent keys are left untouched). -/
def mapModify {α β : Type} [DecidableEq α] : List (α × β) → α → (β → β) → List (α × β)
  | [], _, _ => []
  | (k2, v2) :: rest, k, f =>
    if k2 = k then (k2, f v2) :: rest else (k2, v2) :: mapModify rest k f

/-- A credential field: plaintext before encryption, or an encrypted
value (the source keeps both as `String`; the constructor records which
state the field is in). -/
inductive FieldVal where
  | plain (s : String)
  | enc (v : EncryptedValue)
deriving DecidableEq, Repr

/-- `Password` (src/common/src/model/password.rs, used throughout
src/cli/src/lib.rs): `_id` is the derived credential identifier, `user_id`
the public key, `site` plaintext, `username`/`password` encrypted fields. -/
structure Password where
  _id : HashOutput
  user_id : Nat
  site : String
  username : FieldVal
  password : FieldVal
deriving DecidableEq, Repr

/-- Modelled from the spec: `Password::encrypt` (model/password.rs is not
under src/) — "encrypts username and password fields" with the KeyPair,
drawing a fresh nonce for each field. -/
def Password.encryptFields (p : Password) (kp : KeyPair) (rng : Nat) :
    Password × Nat :=
  match p.username, p.password with
  | .plain u, .plain pw =>
    let r1 := kp.encrypt rng u
    let r2 := kp.encrypt r1.2 pw
    ({ p with username := .enc r1.1, password := .enc r2.1 }, r2.2)
  | _, _ => (p, rng)

/-- `CredentialsMap`: map of site -> map of credential id -> password
(src/cli/src/lib.rs, line 24). -/
abbrev CredentialsMap := List (String × List (HashOutput × Password))

/-- The encrypted-private-key blob produced by the symmetric
encrypt-at-rest primitive: ideal AEAD recording the key material and the
private-key bytes. -/
structure SymCipher where
  key : HashOutput
  msg : Nat
deriving DecidableEq, Repr

/-- The three persisted local files (spec §6): the password-hash record,
the encrypted private-key blob and the serialized cache snapshot; `none`
models an absent file. -/
structure LocalFiles where
  password_hash : Option PasswordHash
  sk_file : Option SymCipher
  app_data : Option CredentialsMap
deriving DecidableEq, Repr

/-- The state with no persisted files. -/
def emptyFs : LocalFiles := ⟨none, none, none⟩

/-- Modelled from the spec: `file::write_password_hash` (cli/src/file.rs
is not under src/) — persists the password-hash record. -/
def writePasswordHash (h : PasswordHash) (fs : LocalFiles) : LocalFiles :=
  { fs with password_hash := some h }

/-- Modelled from the spec: `file::write_sk(sk_bytes, key_material)`
(cli/src/file.rs is not under src/) — persists the private key wrapped by
encrypt-at-rest under key material from the password hash. -/
def writeSk (sk : Nat) (key : HashOutput) (fs : LocalFiles) : LocalFiles :=
  { fs with sk_file := some ⟨key, sk⟩ }

/-- Modelled from the spec: `file::write_app_data` (cli/src/file.rs is not
under src/) — persists the cache snapshot. -/
def writeAppData (m : CredentialsMap) (fs : LocalFiles) : LocalFiles :=
  { fs with app_data := some m }

/-- Modelled from the spec: `file::read_password_hash` (cli/src/file.rs is
not under src/) — a missing file is `StorageUnavailable`. -/
def readPasswordHash (fs : LocalFiles) : RResult PasswordHash :=
  match fs.password_hash with
  | some h => .ok h
  | none => .err "StorageUnavailable"

/-- Modelled from the spec: `file::read_sk(key_material)` (cli/src/file.rs
is not under src/) — decrypt-at-rest of the stored blob; wrong key
material or tampering is `CorruptOrWrongCredentials`, a missing file
`StorageUnavailable`. -/
def readSk (key : HashOutput) (fs : LocalFiles) : RResult Nat :=
  match fs.sk_file with
  | some c => if c.key = key then .ok c.msg else .err "CorruptOrWrongCredentials"
  | none => .err "StorageUnavailable"

/-- Modelled from the spec: `file::read_app_data` (cli/src/file.rs is not
under src/) — reads the cache snapshot. -/
def readAppData (fs : LocalFiles) : RResult CredentialsMap :=
  match fs.app_data with
  | some m => .ok m
  | none => .err "StorageUnavailable"

/-- `sync_with_api` (src/cli/src/lib.rs, lines 74-88): fetches the remote
password list (its outcome is passed in as `apiPasswords`, the remote
store being an external collaborator), rebuilds the cache as
site -> (credential id -> password), persists it and returns it. On fetch
failure the error propagates and nothing is written. -/
def syncWithApi (apiPasswords : RResult (List Password)) (fs : LocalFiles) :
    RResult CredentialsMap × LocalFiles :=
  match apiPasswords with
  | .ok ps =>
    let credentials := ps.foldl
      (fun creds p =>
        let inner := (mapGet creds p.site).getD []
        mapInsert creds p.site (mapInsert inner p._id p))
      []
    (.ok credentials, writeAppData credentials fs)
  | .err e => (.err e, fs)
  | .panicked => (.panicked, fs)

/-- `register` (src/cli/src/lib.rs, lines 32-54): hashes the device
password with a fresh salt, generates a seed phrase (the random phrase is
the `seed` parameter) and derives the KeyPair (`KeyPair::new` panics on an
invalid phrase), then writes the password hash, the wrapped private key
and an empty cache, and finally calls the remote `create_user` (outcome
passed in as `apiResult`). Returns the seed phrase on success. -/
def register (device_pass : String) (salt : SaltT) (seed : String)
    (apiResult : RResult Unit) (fs : LocalFiles) :
    RResult String × LocalFiles :=
  let pass_hash := hashFn device_pass salt
  match KeyPair.newOrPanic (SeedPhrase.fromString seed) with
  | .ok kp =>
    let fs1 := writePasswordHash pass_hash fs
    let fs2 := writeSk kp.private_key pass_hash.cipher fs1
    let fs3 := writeAppData [] fs2
    match apiResult with
    | .ok _ => (.ok seed, fs3)
    | .err e => (.err e, fs3)
    | .panicked => (.panicked, fs3)
  | _ => (.panicked, fs)

/-- `auth_device` (src/cli/src/lib.rs, lines 56-72): hashes the device
password with a fresh salt, derives the KeyPair from the given seed phrase
(`KeyPair::new` panics on an invalid phrase), writes the password hash and
the wrapped private key, then runs `sync_with_api` — whose failure
propagates through the `?` operator. -/
def auth_device (seed device_pass : String) (salt : SaltT)
    (apiPasswords : RResult (List Password)) (fs : LocalFiles) :
    RResult Unit × LocalFiles :=
  let pass_hash := hashFn device_pass salt
  match KeyPair.newOrPanic (SeedPhrase.fromString seed) with
  | .ok kp =>
    let fs1 := writePasswordHash pass_hash fs
    let fs2 := writeSk kp.private_key pass_hash.cipher fs1
    match syncWithApi apiPasswords fs2 with
    | (.ok _, fs3) => (.ok (), fs3)
    | (.err e, fs3) => (.err e, fs3)
    | (.panicked, fs3) => (.panicked, fs3)
  | _ => (.panicked, fs)

/-- `App { key_pair, credentials, api }` (src/cli/src/lib.rs, lines
26-30); the `api` handle is the external collaborator, so the model keeps
the KeyPair and the in-memory cache. -/
structure App where
  key_pair : KeyPair
  credentials : CredentialsMap
deriving DecidableEq, Repr

/-- `App::new` (src/cli/src/lib.rs, lines 91-110): reads the password
hash, verifies the device password, reads and unwraps the private key,
rebuilds the KeyPair, and syncs with the remote store, falling back to the
on-disk cache when the sync fails. -/
def App.new (device_pass : String) (apiPasswords : RResult (List Password))
    (fs : LocalFiles) : RResult App × LocalFiles :=
  match readPasswordHash fs with
  | .err e => (.err e, fs)
  | .panicked => (.panicked, fs)
  | .ok pass_hash =>
    match verifyPassword device_pass pass_hash.cipher pass_hash.nonce with
    | .err e => (.err e, fs)
    | .panicked => (.panicked, fs)
    | .ok _ =>
      match readSk pass_hash.cipher fs with
      | .err e => (.err e, fs)
      | .panicked => (.panicked, fs)
      | .ok sk =>
        let key_pair := KeyPair.from_sk sk
        match syncWithApi apiPasswords fs with
        | (.ok credentials, fs2) => (.ok ⟨key_pair, credentials⟩, fs2)
        | (_, _) =>
          match readAppData fs with
          | .ok credentials => (.ok ⟨key_pair, credentials⟩, fs)
          | .err e => (.err e, fs)
          | .panicked => (.panicked, fs)

/-- `App::verify_credentials_exist` (src/cli/src/lib.rs, lines 219-230). -/
def App.verifyCredentialsExist (app : App) (site username : String) :
    RResult Unit :=
  match mapGet app.credentials site with
  | some passwords =>
    let id := app.key_pair.hash (site ++ username)
    match mapGet passwords id with
    | some _ => .ok ()
    | none => .err "Credentials not found"
  | none => .err "Credentials not found"

/-- `App::verify_credentials_dont_exist` (src/cli/src/lib.rs, lines
232-237). -/
def App.verifyCredentialsDontExist (app : App) (site username : String) :
    RResult Unit :=
  match app.verifyCredentialsExist site username with
  | .ok _ => .err "Credentials already exist"
  | _ => .ok ()

/-- `App::add` (src/cli/src/lib.rs, lines 112-142): checks the credential
is absent, derives the identifier, encrypts the fields, submits to the
remote store (outcome passed in as `apiResult`), and only on remote
success inserts into the cache and persists it. -/
def App.add (app : App) (site username password : String) (rng : Nat)
    (apiResult : RResult Unit) (fs : LocalFiles) :
    RResult Unit × App × LocalFiles :=
  match app.verifyCredentialsDontExist site username with
  | .err e => (.err e, app, fs)
  | .panicked => (.panicked, app, fs)
  | .ok _ =>
    let user_id := app.key_pair.public_key
    let password_id := app.key_pair.hash (site ++ username)
    let p : Password := ⟨password_id, user_id, site, .plain username, .plain password⟩
    let pEnc := (p.encryptFields app.key_pair rng).1
    match apiResult with
    | .err e => (.err e, app, fs)
    | .panicked => (.panicked, app, fs)
    | .ok _ =>
      let inner := (mapGet app.credentials site).getD []
      let credentials := mapInsert app.credentials site (mapInsert inner password_id pEnc)
      (.ok (), { app with credentials := credentials }, writeAppData credentials fs)

/-- `App::edit` (src/cli/src/lib.rs, lines 172-197): checks the credential
exists, encrypts the new password, submits the update to the remote store
(outcome passed in as `apiResult`), and only on remote success overwrites
the cached entry's password field and persists the cache. -/
def App.edit (app : App) (site username password : String) (rng : Nat)
    (apiResult : RResult Unit) (fs : LocalFiles) :
    RResult Unit × App × LocalFiles :=
  match app.verifyCredentialsExist site username with
  | .err e => (.err e, app, fs)
  | .panicked => (.panicked, app, fs)
  | .ok _ =>
    let password_id := app.key_pair.hash (site ++ username)
    let password_enc := (app.key_pair.encrypt rng password).1
    match apiResult with
    | .err e => (.err e, app, fs)
    | .panicked => (.panicked, app, fs)
    | .ok _ =>
      let inner := (mapGet app.credentials site).getD []
      let inner2 := mapModify inner password_id
        (fun p => { p with password := .enc password_enc })
      let credentials := mapInsert app.credentials site inner2
      (.ok (), { app with credentials := credentials }, writeAppData credentials fs)

/-- `App::delete` (src/cli/src/lib.rs, lines 199-217): checks the
credential exists, requests remote deletion (outcome passed in as
`apiResult`), and only on remote success removes the cache entry and
persists the cache. -/
def App.delete (app : App) (site username : String)
    (apiResult : RResult Unit) (fs : LocalFiles) :
    RResult Unit × App × LocalFiles :=
  match app.verifyCredentialsExist site username with
  | .err e => (.err e, app, fs)
  | .panicked => (.panicked, app, fs)
  | .ok _ =>
    let password_id := app.key_pair.hash (site ++ username)
    match apiResult with
    | .err e => (.err e, app, fs)
    | .panicked => (.panicked, app, fs)
    | .ok _ =>
      let inner := (mapGet app.credentials site).getD []
      let inner2 := mapRemove inner password_id
      let credentials := mapInsert app.credentials site inner2
      (.ok (), { app with credentials := credentials }, writeAppData credentials fs)

/-- `usize::MAX`, the bound of `checked_add` on 64-bit targets. -/
def USIZE_MAX : Nat := 2 ^ 64 - 1

/-- `PortContext { port, last_request_id }`
(src/extension/background-script/src/lib.rs, lines 31-35); the JS `Port`
handle is modelled as an opaque number. `INITIAL_REQUEST_ID` of the
`messages` crate (not under src/) is modelled from the spec as 0, request
ids being "monotonically increasing" from it. -/
structure PortContext where
  port : Nat
  last_request_id : Nat
deriving DecidableEq, Repr

/-- `PortContext::new` (background-script lib.rs, lines 38-43). -/
def PortContext.newCtx (port : Nat) : PortContext :=
  ⟨port, 0⟩

/-- `ConnectedPorts { last_id, ctx_by_id }` (background-script lib.rs,
lines 52-56). -/
structure ConnectedPorts where
  last_id : Nat
  ctx_by_id : List (Nat × PortContext)
deriving DecidableEq, Repr

/-- `ConnectedPorts::default()`. -/
def ConnectedPorts.empty : ConnectedPorts :=
  ⟨0, []⟩

/-- `ConnectedPorts::connect` (background-script lib.rs, lines 65-71):
computes `id = last_id.checked_add(1)?` and inserts a fresh context at
`id`. The source never writes the computed id back into `last_id`. -/
def ConnectedPorts.connect (cp : ConnectedPorts) (port : Nat) :
    Option Nat × ConnectedPorts :=
  if cp.last_id = USIZE_MAX then (none, cp)
  else
    let id := cp.last_id + 1
    (some id, { cp with ctx_by_id := mapInsert cp.ctx_by_id id (PortContext.newCtx port) })

/-- `ConnectedPorts::disconnect` (background-script lib.rs, lines 73-77). -/
def ConnectedPorts.disconnect (cp : ConnectedPorts) (id : Nat) :
    Option Nat × ConnectedPorts :=
  match mapGet cp.ctx_by_id id with
  | some ctx => (some ctx.port, { cp with ctx_by_id := mapRemove cp.ctx_by_id id })
  | none => (none, cp)

/-- A twelve-word phrase over the model wordlist, validating as a
mnemonic; stands for the random phrase produced by `SeedPhrase::new`. -/
def seedC : String :=
  "abandon ability able about zoo abandon ability able about zoo abandon zoo"

end PassPhraseX

namespace PassPhraseX

/-- Diffie–Hellman commutativity in the model group: the shared secret of
(someone else's public key, my secret key) equals the shared secret of
(my public key, their secret key). -/
theorem sharedKey_pubOf_comm (a b : Nat) :
    sharedKey (pubOf a) b = sharedKey (pubOf b) a := by
  simp only [sharedKey, pubOf]
  rw [← Nat.pow_mod, ← Nat.pow_mod, ← pow_mul, ← pow_mul, Nat.mul_comm]

/-- C1: for every KeyPair and plaintext, decrypting the encryption of the
plaintext returns the plaintext, and a second (sequential) call to
`encrypt` with the same KeyPair and message produces an `EncryptedValue`
with a different nonce field. -/
theorem C1_encrypt_decrypt_roundtrip_fresh_nonce
    (kp : KeyPair) (rng : Nat) (m : String) :
    kp.decrypt (kp.encrypt rng m).1 = .ok m ∧
    ((kp.encrypt (kp.encrypt rng m).2 m).1.nonce ≠ (kp.encrypt rng m).1.nonce) := by
  constructor
  · simp [KeyPair.decrypt, KeyPair.encrypt, boxOpen, boxSeal]
  · simp [KeyPair.encrypt]

/-- C10: sign/verify round-trip — for every KeyPair (its public key
derived from its private key, as every constructor of the source
guarantees), opening the token produced by `sign` with the fixed all-zero
verification key paired with the signer's public key recovers exactly the
signed message. -/
theorem C10_sign_verify_roundtrip (kp : KeyPair) (rng : Nat) (m : String)
    (hwf : kp.public_key = pubOf kp.private_key) :
    verify kp.public_key (kp.sign rng m).1 = .ok m := by
  simp only [verify, KeyPair.sign, hwf, sharedKey_pubOf_comm kp.private_key 0]
  simp [boxOpen, boxSeal]

/-- Witness for C10 at the KeyPair derived from private key 3. -/
theorem C10_sign_verify_roundtrip_witness :
    (KeyPair.from_sk 3).public_key = pubOf (KeyPair.from_sk 3).private_key ∧
    verify (KeyPair.from_sk 3).public_key
      ((KeyPair.from_sk 3).sign 5 "hello").1 = .ok "hello" :=
  ⟨rfl, C10_sign_verify_roundtrip (KeyPair.from_sk 3) 5 "hello" rfl⟩

/-- C5: the credential identifier `kp.hash(site ++ username)` depends only
on the public key (determinism: two KeyPairs exposing the same public key
derive the same identifier, and the function is pure), while two KeyPairs
with distinct public keys derive distinct identifiers for the same
`(site, username)`. -/
theorem C5_credential_id_deterministic_and_key_separated
    (kp1 kp2 : KeyPair) (site username : String) :
    (kp1.public_key = kp2.public_key →
      kp1.hash (site ++ username) = kp2.hash (site ++ username)) ∧
    (kp1.public_key ≠ kp2.public_key →
      kp1.hash (site ++ username) ≠ kp2.hash (site ++ username)) := by
  constructor
  · intro h
    simp [KeyPair.hash, hashFn, h]
  · intro h hc
    exact h (by simpa [KeyPair.hash, hashFn, SaltT.pk.injEq] using hc)

/-- Witness for C5: the KeyPairs derived from private keys 3 and 5 have
distinct public keys and derive distinct identifiers for the same site and
username; a KeyPair equal to the first in public key derives the same
identifier. -/
theorem C5_credential_id_witness :
    KeyPair.hash (KeyPair.from_sk 3) ("example.com" ++ "alice") =
      KeyPair.hash (KeyPair.from_sk 3) ("example.com" ++ "alice") ∧
    (KeyPair.from_sk 3).public_key ≠ (KeyPair.from_sk 5).public_key ∧
    KeyPair.hash (KeyPair.from_sk 3) ("example.com" ++ "alice") ≠
      KeyPair.hash (KeyPair.from_sk 5) ("example.com" ++ "alice") :=
  ⟨(C5_credential_id_deterministic_and_key_separated
      (KeyPair.from_sk 3) (KeyPair.from_sk 3) "example.com" "alice").1 rfl,
   by decide,
   (C5_credential_id_deterministic_and_key_separated
      (KeyPair.from_sk 3) (KeyPair.from_sk 5) "example.com" "alice").2
      (by decide)⟩

/-- C8 counterexample: `SeedPhrase` construction via `From<String>` is
total and unvalidated — the string "hello world" does not validate as a
mnemonic, yet a `SeedPhrase` value holding it exists, contradicting "no
SeedPhrase value exists for a string that does not validate". -/
theorem C8_seedphrase_counterexample :
    (SeedPhrase.fromString "hello world").get_phrase = "hello world" ∧
    validMnemonic "hello world" = false := by
  constructor
  · rfl
  · decide

/-- C8 amended: constructing a `SeedPhrase` from a string performs no
validation (any string yields a `SeedPhrase` holding it); validation
happens atomically in `KeyPair::try_new`, which fails on a non-validating
phrase with no partial result (no KeyPair is produced). -/
theorem C8_seedphrase_validation_in_tryNew (s : String)
    (h : validMnemonic s = false) :
    (SeedPhrase.fromString s).get_phrase = s ∧
    KeyPair.tryNew (SeedPhrase.fromString s) = .err "Failed to create mnemonic" := by
  refine ⟨rfl, ?_⟩
  simp [KeyPair.tryNew, SeedPhrase.fromString, SeedPhrase.get_phrase, h]

/-- Witness for C8 at the non-validating string "hello world". -/
theorem C8_seedphrase_validation_witness :
    validMnemonic "hello world" = false ∧
    ((SeedPhrase.fromString "hello world").get_phrase = "hello world" ∧
     KeyPair.tryNew (SeedPhrase.fromString "hello world") =
       .err "Failed to create mnemonic") :=
  ⟨by decide, C8_seedphrase_validation_in_tryNew "hello world" (by decide)⟩

/-- C9 counterexample: at the KeyPair derived from private key 3 and a
tampered `EncryptedValue` (sealed under a different key), `decrypt`
panics (`unwrap` on the failed AEAD opening) — no `DecryptionFailed`
error value is returned to the caller. -/
theorem C9_decrypt_panics_counterexample :
    KeyPair.decrypt (KeyPair.from_sk 3) ⟨⟨999, 5, "secret"⟩, 5⟩ =
      RResult.panicked ∧
    (KeyPair.decrypt (KeyPair.from_sk 3) ⟨⟨999, 5, "secret"⟩, 5⟩).isErr = false := by
  decide

/-- C9 amended: for every KeyPair and every `EncryptedValue` that does not
authenticate under it, `decrypt` panics (the `unwrap` aborts the process):
it never returns an empty string or any other plaintext and the failure is
never silently ignored, but the failure is a panic, not a
`DecryptionFailed` error signalled to the caller. -/
theorem C9_decrypt_auth_failure_panics (kp : KeyPair) (v : EncryptedValue)
    (h : boxOpen kp.selfKey v.nonce v.cipher = none) :
    kp.decrypt v = RResult.panicked ∧ ∀ s : String, kp.decrypt v ≠ .ok s := by
  refine ⟨?_, ?_⟩
  · simp [KeyPair.decrypt, h]
  · intro s
    simp [KeyPair.decrypt, h]

/-- `verify_credentials_exist` only returns `Ok` or an error, never
panics. -/
theorem verifyCredentialsExist_not_panicked (app : App) (site username : String) :
    app.verifyCredentialsExist site username ≠ .panicked := by
  unfold App.verifyCredentialsExist
  cases mapGet app.credentials site with
  | none => simp
  | some passwords =>
    cases h2 : mapGet passwords (app.key_pair.hash (site ++ username)) <;> simp [h2]

/-- `verify_credentials_dont_exist` only returns `Ok` or an error, never
panics. -/
theorem verifyCredentialsDontExist_not_panicked (app : App) (site username : String) :
    app.verifyCredentialsDontExist site username ≠ .panicked := by
  unfold App.verifyCredentialsDontExist
  cases app.verifyCredentialsExist site username <;> simp

/-- C2 counterexample: with a valid generated seed phrase, when the remote
`create_user` call fails, `register` returns the error but the password
hash, the encrypted private key and the cache file have all been written
(starting from no persisted state), contradicting all-or-nothing. -/
theorem C2_register_counterexample :
    (register "hunter2" (SaltT.random "s1") seedC (.err "network error") emptyFs).1 =
      .err "network error" ∧
    (register "hunter2" (SaltT.random "s1") seedC (.err "network error") emptyFs).2.password_hash ≠ none ∧
    (register "hunter2" (SaltT.random "s1") seedC (.err "network error") emptyFs).2.sk_file ≠ none ∧
    (register "hunter2" (SaltT.random "s1") seedC (.err "network error") emptyFs).2.app_data ≠ none := by
  decide

/-- C2 amended: `register` persists the password hash, the wrapped private
key and an empty cache before calling the remote `create_user`; when the
remote call fails, `register` returns the error with those three local
writes already persisted (only a failure before the first write leaves no
state). -/
theorem C2_register_remote_failure_persists_local_writes
    (device_pass : String) (salt : SaltT) (seed : String) (e : String)
    (fs : LocalFiles) (hv : validMnemonic seed = true) :
    register device_pass salt seed (.err e) fs =
      (.err e,
        writeAppData []
          (writeSk (deriveSk seed) (hashFn device_pass salt).cipher
            (writePasswordHash (hashFn device_pass salt) fs))) := by
  simp [register, KeyPair.newOrPanic, KeyPair.tryNew, SeedPhrase.fromString,
    SeedPhrase.get_phrase, hv, KeyPair.from_sk]

/-- Witness for C2 at a concrete valid seed phrase and failing remote. -/
theorem C2_register_witness :
    validMnemonic seedC = true ∧
    register "hunter2" (SaltT.random "s1") seedC (.err "network error") emptyFs =
      (.err "network error",
        writeAppData []
          (writeSk (deriveSk seedC) (hashFn "hunter2" (SaltT.random "s1")).cipher
            (writePasswordHash (hashFn "hunter2" (SaltT.random "s1")) emptyFs))) :=
  ⟨by decide,
   C2_register_remote_failure_persists_local_writes "hunter2" (SaltT.random "s1")
     seedC "network error" emptyFs (by decide)⟩

/-- C3 counterexample: with a valid seed phrase and a failing remote
store, `auth_device` aborts with the sync error instead of completing
authentication. -/
theorem C3_auth_device_counterexample :
    (auth_device seedC "hunter2" (SaltT.random "s2") (.err "network error") emptyFs).1 =
      .err "network error" := by
  decide

/-- C3 amended: a sync failure is fatal to `auth_device` — the sync error
propagates and the operation aborts; the password hash and the wrapped
private key have already been persisted, and the cache file is left
exactly as it was (not written, rather than written empty). -/
theorem C3_auth_device_sync_failure_aborts
    (seed device_pass : String) (salt : SaltT) (e : String) (fs : LocalFiles)
    (hv : validMnemonic seed = true) :
    auth_device seed device_pass salt (.err e) fs =
      (.err e,
        writeSk (deriveSk seed) (hashFn device_pass salt).cipher
          (writePasswordHash (hashFn device_pass salt) fs)) ∧
    (auth_device seed device_pass salt (.err e) fs).2.app_data = fs.app_data := by
  constructor
  · simp [auth_device, KeyPair.newOrPanic, KeyPair.tryNew, SeedPhrase.fromString,
      SeedPhrase.get_phrase, hv, KeyPair.from_sk, syncWithApi]
  · simp [auth_device, KeyPair.newOrPanic, KeyPair.tryNew, SeedPhrase.fromString,
      SeedPhrase.get_phrase, hv, KeyPair.from_sk, syncWithApi, writeSk,
      writePasswordHash]

/-- Witness for C3 at a concrete valid seed phrase and failing remote. -/
theorem C3_auth_device_witness :
    validMnemonic seedC = true ∧
    (auth_device seedC "hunter2" (SaltT.random "s2") (.err "network error") emptyFs =
        (.err "network error",
          writeSk (deriveSk seedC) (hashFn "hunter2" (SaltT.random "s2")).cipher
            (writePasswordHash (hashFn "hunter2" (SaltT.random "s2")) emptyFs)) ∧
      (auth_device seedC "hunter2" (SaltT.random "s2") (.err "network error") emptyFs).2.app_data =
        emptyFs.app_data) :=
  ⟨by decide,
   C3_auth_device_sync_failure_aborts seedC "hunter2" (SaltT.random "s2")
     "network error" emptyFs (by decide)⟩

/-- C4: evaluating `connect` on the code as written — two sequential
`connect()` calls on a fresh `ConnectedPorts` both return port id 1, and
`last_id` is still 0 after the first call: `connect` computes
`last_id.checked_add(1)` but never stores it back, so ids are reused
immediately instead of being distinct and monotonically increasing. -/
theorem C4_connect_reuses_port_id_one :
    (ConnectedPorts.empty.connect 10).1 = some 1 ∧
    ((ConnectedPorts.empty.connect 10).2.connect 11).1 = some 1 ∧
    (ConnectedPorts.empty.connect 10).2.last_id = 0 := by
  decide

/-- C6: for every mutating vault operation (`add`, `edit`, `delete`), when
the remote-store call fails the operation returns an error and both the
in-memory cache (the `App`) and the persisted files are exactly as they
were before the operation. -/
theorem C6_remote_failure_leaves_cache_unchanged
    (app : App) (site username password : String) (rng : Nat) (e : String)
    (fs : LocalFiles) :
    ((app.add site username password rng (.err e) fs).1.isErr = true ∧
      (app.add site username password rng (.err e) fs).2 = (app, fs)) ∧
    ((app.edit site username password rng (.err e) fs).1.isErr = true ∧
      (app.edit site username password rng (.err e) fs).2 = (app, fs)) ∧
    ((app.delete site username (.err e) fs).1.isErr = true ∧
      (app.delete site username (.err e) fs).2 = (app, fs)) := by
  refine ⟨?_, ?_, ?_⟩
  · cases h : app.verifyCredentialsDontExist site username with
    | ok a => simp [App.add, h, RResult.isErr]
    | err e2 => simp [App.add, h, RResult.isErr]
    | panicked => exact absurd h (verifyCredentialsDontExist_not_panicked app site username)
  · cases h : app.verifyCredentialsExist site username with
    | ok a => simp [App.edit, h, RResult.isErr]
    | err e2 => simp [App.edit, h, RResult.isErr]
    | panicked => exact absurd h (verifyCredentialsExist_not_panicked app site username)
  · cases h : app.verifyCredentialsExist site username with
    | ok a => simp [App.delete, h, RResult.isErr]
    | err e2 => simp [App.delete, h, RResult.isErr]
    | panicked => exact absurd h (verifyCredentialsExist_not_panicked app site username)

/-- C7: `App::new` with a wrong device password fails with
`IncorrectDevicePassword` — raised by the password check, before the
private key is read or decrypted — and leaves every persisted file
unchanged. -/
theorem C7_unlock_wrong_password
    (device_pass real_pass : String) (salt : SaltT)
    (apiPasswords : RResult (List Password)) (fs : LocalFiles)
    (hstored : fs.password_hash = some (hashFn real_pass salt))
    (hne : device_pass ≠ real_pass) :
    App.new device_pass apiPasswords fs = (.err "IncorrectDevicePassword", fs) := by
  have hne2 : real_pass ≠ device_pass := Ne.symm hne
  simp [App.new, readPasswordHash, hstored, hashFn, verifyPassword,
    HashOutput.mk.injEq, hne2]

/-- Witness for C7: registering stored the hash of "hunter2"; unlocking
with "wrong" fails with `IncorrectDevicePassword` and the files are
untouched. -/
theorem C7_unlock_wrong_password_witness :
    (writePasswordHash (hashFn "hunter2" (SaltT.random "s3")) emptyFs).password_hash =
      some (hashFn "hunter2" (SaltT.random "s3")) ∧
    "wrong" ≠ "hunter2" ∧
    App.new "wrong" (RResult.err "down")
        (writePasswordHash (hashFn "hunter2" (SaltT.random "s3")) emptyFs) =
      (.err "IncorrectDevicePassword",
        writePasswordHash (hashFn "hunter2" (SaltT.random "s3")) emptyFs) :=
  ⟨rfl, by decide,
   C7_unlock_wrong_password "wrong" "hunter2" (SaltT.random "s3")
     (RResult.err "down")
     (writePasswordHash (hashFn "hunter2" (SaltT.random "s3")) emptyFs)
     rfl (by decide)⟩

/-- Witness for C9 at a concrete tampered value. -/
theorem C9_decrypt_auth_failure_witness :
    boxOpen (KeyPair.from_sk 3).selfKey 5 ⟨999, 5, "secret"⟩ = none ∧
    (KeyPair.decrypt (KeyPair.from_sk 3) ⟨⟨999, 5, "secret"⟩, 5⟩ =
        RResult.panicked ∧
      ∀ s : String,
        KeyPair.decrypt (KeyPair.from_sk 3) ⟨⟨999, 5, "secret"⟩, 5⟩ ≠ .ok s) :=
  ⟨by decide,
   C9_decrypt_auth_failure_panics (KeyPair.from_sk 3) ⟨⟨999, 5, "secret"⟩, 5⟩
     (by decide)⟩

end PassPhraseX
